import Mathlib

/-!
Shallow embedding of the dataset persistence and query-translation core of the
`sheetapi` repository (src/db.rs, src/options.rs), together with proofs about
the claims on its behaviour.  Rust functions are translated into executable
Lean definitions; the MongoDB collections are modelled as in-memory lists of
documents, BSON values as an inductive scalar type, and fallible operations as
`Option`/`Except`.
-/

namespace SheetApi

/-- Calendar timestamp, modelling `chrono::NaiveDateTime` by its displayed
components: year-month-day, hour:minute:second and a nanosecond fraction. -/
structure Timestamp where
  year : Nat
  month : Nat
  day : Nat
  hour : Nat
  minute : Nat
  second : Nat
  nanos : Nat
deriving DecidableEq, Repr

/-- Gregorian leap-year rule, as used by `chrono` for date validation. -/
def isLeapYear (y : Nat) : Bool :=
  (y % 4 == 0 && y % 100 != 0) || y % 400 == 0

/-- Days in a month, as used by `chrono` for date validation. -/
def daysInMonth (y m : Nat) : Nat :=
  if m = 2 then (if isLeapYear y then 29 else 28)
  else if m = 4 ∨ m = 6 ∨ m = 9 ∨ m = 11 then 30
  else 31

/-- The component ranges accepted by `chrono` for a naive datetime (restricted
to four-digit years, as rendered by the `%Y` format code). -/
def validTimestamp (t : Timestamp) : Prop :=
  t.year ≤ 9999 ∧ 1 ≤ t.month ∧ t.month ≤ 12 ∧ 1 ≤ t.day ∧
    t.day ≤ daysInMonth t.year t.month ∧ t.hour ≤ 23 ∧ t.minute ≤ 59 ∧
    t.second ≤ 59 ∧ t.nanos < 1000000000

instance validTimestampDecidable : DecidablePred validTimestamp := by
  intro t
  unfold validTimestamp
  infer_instance

/-- The character for a decimal digit (`0`-`9`). -/
def digitChar (d : Nat) : Char := Char.ofNat (48 + d)

/-- Numeric value of a decimal digit character. -/
def charDigitVal (c : Char) : Nat := c.toNat - 48

/-- Two-digit zero-padded rendering, as produced by chrono `%m`, `%d`, `%H`,
`%M`, `%S`. -/
def fmt2 (n : Nat) : List Char := [digitChar (n / 10 % 10), digitChar (n % 10)]

/-- Three-digit zero-padded rendering, as produced by chrono `%.3f` for the
millisecond fraction. -/
def fmt3 (n : Nat) : List Char :=
  [digitChar (n / 100 % 10), digitChar (n / 10 % 10), digitChar (n % 10)]

/-- Four-digit zero-padded rendering, as produced by chrono `%Y` for years up
to 9999. -/
def fmt4 (n : Nat) : List Char :=
  [digitChar (n / 1000 % 10), digitChar (n / 100 % 10), digitChar (n / 10 % 10),
    digitChar (n % 10)]

/-- chrono `format("%Y-%m-%dT%H:%M:%S%.3fZ")` (db.rs line 572): the ISO-8601
millisecond rendering with a literal `Z` suffix.  `%.3f` truncates the
nanosecond fraction to milliseconds. -/
def formatIsoMillis (t : Timestamp) : List Char :=
  fmt4 t.year ++ '-' :: fmt2 t.month ++ '-' :: fmt2 t.day ++ 'T' :: fmt2 t.hour
    ++ ':' :: fmt2 t.minute ++ ':' :: fmt2 t.second
    ++ '.' :: fmt3 (t.nanos / 1000000) ++ ['Z']

/-- Numeric value of a run of decimal digit characters (most significant
first). -/
def digitsVal (cs : List Char) : Nat :=
  cs.foldl (fun acc c => acc * 10 + charDigitVal c) 0

/-- Value of a two-digit group. -/
def val2 (a b : Char) : Nat := charDigitVal a * 10 + charDigitVal b

/-- Value of a four-digit group. -/
def val4 (a b c d : Char) : Nat :=
  charDigitVal a * 1000 + charDigitVal b * 100 + charDigitVal c * 10 +
    charDigitVal d

/-- The `%.fZ` tail of the chrono parse format: either a bare `Z`, or a dot
followed by one to nine fraction digits and `Z`.  Returns the nanosecond
value. -/
def parseFracZ (rest : List Char) : Option Nat :=
  match rest with
  | ['Z'] => some 0
  | '.' :: more =>
    let ds := more.dropLast
    if more.getLast? == some 'Z' && ds.length ≥ 1 && ds.length ≤ 9 &&
        ds.all Char.isDigit then
      some (digitsVal ds * 10 ^ (9 - ds.length))
    else none
  | _ => none

/-- Model of `NaiveDateTime::parse_from_str(s, "%Y-%m-%dT%H:%M:%S%.fZ")`
(db.rs line 603): a fixed `YYYY-MM-DDTHH:MM:SS` prefix, an optional fraction,
a literal `Z`, and chrono's range validation of the components. -/
def parseNaiveDatetime (cs : List Char) : Option Timestamp :=
  match cs with
  | y1 :: y2 :: y3 :: y4 :: '-' :: m1 :: m2 :: '-' :: d1 :: d2 :: 'T' ::
      h1 :: h2 :: ':' :: n1 :: n2 :: ':' :: s1 :: s2 :: rest =>
    if [y1, y2, y3, y4, m1, m2, d1, d2, h1, h2, n1, n2, s1, s2].all
        Char.isDigit then
      match parseFracZ rest with
      | some nanos =>
        let t : Timestamp :=
          ⟨val4 y1 y2 y3 y4, val2 m1 m2, val2 d1 d2, val2 h1 h2, val2 n1 n2,
            val2 s1 s2, nanos⟩
        if validTimestamp t then some t else none
      | none => none
    else none
  | _ => none

/-- Scalar BSON value model. Nested documents and arrays inside row payloads
are not needed by any claim and are left out; all operations below act on this
scalar universe. -/
inductive BVal where
  | str (s : String)
  | i64 (n : Int)
  | f64 (q : Rat)
  | bool (b : Bool)
  | dt (t : Timestamp)
  | oid (s : String)
  | null
deriving DecidableEq, Repr

/-- JSON value model for the external representation produced by
`bson_to_json`. -/
inductive JVal where
  | jstr (s : String)
  | jint (n : Int)
  | jnum (q : Rat)
  | jbool (b : Bool)
  | jnull
deriving DecidableEq, Repr

/-- Per-value action of `convert_datetime_strings` (db.rs 598-613): a string
value that parses under `%Y-%m-%dT%H:%M:%S%.fZ` is replaced by the timestamp;
every other value is kept unchanged. -/
def convertDatetimeValue (v : BVal) : BVal :=
  match v with
  | .str s =>
    match parseNaiveDatetime s.data with
    | some t => .dt t
    | none => .str s
  | other => other

/-- `convert_datetime_strings` (db.rs 598-613) over a document: each top-level
string value is opportunistically reinterpreted as a timestamp. -/
def convertDatetimeStrings (d : List (String × BVal)) : List (String × BVal) :=
  d.map (fun kv => (kv.1, convertDatetimeValue kv.2))

/-- `bson_to_json` (db.rs 567-588) on scalar values: object ids render as
their string form, datetimes as the ISO-8601 millisecond string with `Z`
suffix, other scalars pass through. -/
def bsonToJson (b : BVal) : JVal :=
  match b with
  | .oid s => .jstr s
  | .dt t => .jstr (String.mk (formatIsoMillis t))
  | .str s => .jstr s
  | .i64 n => .jint n
  | .f64 q => .jnum q
  | .bool b => .jbool b
  | .null => .jnull

/-- `QueryFilterParams::to_pagination` (options.rs 319-327): start defaults to
0, limit defaults to 100 and is clamped to the configured listing maximum
(`LISTING_LIMIT`, default 10,000). -/
def toPagination (maxListing : Nat) (start? limit? : Option Nat) : Nat × Nat :=
  let start := start?.getD 0
  let limit := limit?.getD 100
  let limit := if limit > maxListing then maxListing else limit
  (start, limit)

/-- The limit actually applied by `DB::find_records_with_total` (db.rs line
131): a zero limit is reinterpreted as an internal cap of 10,000,000. -/
def effectiveFindLimit (limit : Nat) : Nat :=
  if limit > 0 then limit else 10000000

lemma digitChar_isDigit : ∀ d, d < 10 → (digitChar d).isDigit = true := by
  decide

lemma charDigitVal_digitChar : ∀ d, d < 10 → charDigitVal (digitChar d) = d := by
  decide

lemma isDigit_digitChar_mod (n : Nat) : (digitChar (n % 10)).isDigit = true :=
  digitChar_isDigit _ (Nat.mod_lt _ (by omega))

lemma charDigitVal_digitChar_mod (n : Nat) :
    charDigitVal (digitChar (n % 10)) = n % 10 :=
  charDigitVal_digitChar _ (Nat.mod_lt _ (by omega))

lemma val2_fmt2 (n : Nat) (h : n ≤ 99) :
    val2 (digitChar (n / 10 % 10)) (digitChar (n % 10)) = n := by
  unfold val2
  rw [charDigitVal_digitChar_mod, charDigitVal_digitChar_mod]
  omega

lemma val4_fmt4 (n : Nat) (h : n ≤ 9999) :
    val4 (digitChar (n / 1000 % 10)) (digitChar (n / 100 % 10))
      (digitChar (n / 10 % 10)) (digitChar (n % 10)) = n := by
  unfold val4
  rw [charDigitVal_digitChar_mod, charDigitVal_digitChar_mod,
    charDigitVal_digitChar_mod, charDigitVal_digitChar_mod]
  omega

lemma digitsVal_fmt3 (n : Nat) (h : n ≤ 999) : digitsVal (fmt3 n) = n := by
  unfold digitsVal fmt3
  simp only [List.foldl_cons, List.foldl_nil]
  rw [charDigitVal_digitChar_mod, charDigitVal_digitChar_mod,
    charDigitVal_digitChar_mod]
  omega

lemma parseFracZ_fmt3 (ms : Nat) (h : ms ≤ 999) :
    parseFracZ ('.' :: (fmt3 ms ++ ['Z'])) = some (ms * 1000000) := by
  unfold parseFracZ
  simp only [List.dropLast_concat, List.getLast?_concat]
  have hd : (fmt3 ms).all Char.isDigit = true := by
    unfold fmt3
    simp [List.all_cons, isDigit_digitChar_mod]
  have hl : (fmt3 ms).length = 3 := by unfold fmt3; rfl
  simp only [hd, hl]
  norm_num
  rw [digitsVal_fmt3 ms h]

/-- Parsing the chrono millisecond rendering of a valid timestamp recovers the
timestamp: `%Y-%m-%dT%H:%M:%S%.fZ` applied to the `%.3f` output. -/
lemma parseNaiveDatetime_format (t : Timestamp) (hv : validTimestamp t)
    (hm : t.nanos % 1000000 = 0) :
    parseNaiveDatetime (formatIsoMillis t) = some t := by
  obtain ⟨h1, h2, h3, h4, h5, h6, h7, h8, h9⟩ := hv
  have hday : t.day ≤ 31 := by
    refine h5.trans ?_
    unfold daysInMonth
    split <;> first | omega | (split <;> omega)
  have hms : t.nanos / 1000000 ≤ 999 := by omega
  show parseNaiveDatetime
      (digitChar (t.year / 1000 % 10) :: digitChar (t.year / 100 % 10) ::
        digitChar (t.year / 10 % 10) :: digitChar (t.year % 10) :: '-' ::
        digitChar (t.month / 10 % 10) :: digitChar (t.month % 10) :: '-' ::
        digitChar (t.day / 10 % 10) :: digitChar (t.day % 10) :: 'T' ::
        digitChar (t.hour / 10 % 10) :: digitChar (t.hour % 10) :: ':' ::
        digitChar (t.minute / 10 % 10) :: digitChar (t.minute % 10) :: ':' ::
        digitChar (t.second / 10 % 10) :: digitChar (t.second % 10) ::
        ('.' :: (fmt3 (t.nanos / 1000000) ++ ['Z']))) = some t
  unfold parseNaiveDatetime
  simp only [List.all_cons, List.all_nil, isDigit_digitChar_mod, Bool.and_self,
    Bool.and_true, if_true]
  rw [parseFracZ_fmt3 _ hms]
  simp only
  rw [val4_fmt4 _ h1, val2_fmt2 _ (by omega), val2_fmt2 _ (by omega)]
  rw [val2_fmt2 _ (by omega), val2_fmt2 _ (by omega), val2_fmt2 _ (by omega)]
  have hn : t.nanos / 1000000 * 1000000 = t.nanos := by omega
  rw [hn]
  have hvt : validTimestamp ⟨t.year, t.month, t.day, t.hour, t.minute,
      t.second, t.nanos⟩ := ⟨h1, h2, h3, h4, h5, h6, h7, h8, h9⟩
  simp [hvt]

/-- C9: for every valid timestamp whose fraction is an exact number of
milliseconds, writing its canonical ISO-8601 millisecond string through the
value normalizer stores it as a timestamp, and reading that timestamp back
through `bson_to_json` renders exactly the same string: the write/read pair is
a round trip on the canonical `YYYY-MM-DDTHH:MM:SS.sssZ` form. -/
theorem c9_datetime_roundtrip (t : Timestamp) (hv : validTimestamp t)
    (hm : t.nanos % 1000000 = 0) :
    convertDatetimeValue (BVal.str (String.mk (formatIsoMillis t)))
        = BVal.dt t ∧
    bsonToJson (BVal.dt t) = JVal.jstr (String.mk (formatIsoMillis t)) := by
  constructor
  · unfold convertDatetimeValue
    simp only [String.data]
    rw [parseNaiveDatetime_format t hv hm]
  · rfl

/-- Witness for C9 at the spec's example timestamp 2024-03-01T12:30:00.123Z. -/
theorem c9_datetime_roundtrip_witness :
    convertDatetimeValue
        (BVal.str (String.mk (formatIsoMillis ⟨2024, 3, 1, 12, 30, 0,
          123000000⟩))) = BVal.dt ⟨2024, 3, 1, 12, 30, 0, 123000000⟩ ∧
    bsonToJson (BVal.dt ⟨2024, 3, 1, 12, 30, 0, 123000000⟩)
        = JVal.jstr (String.mk (formatIsoMillis ⟨2024, 3, 1, 12, 30, 0,
          123000000⟩)) :=
  c9_datetime_roundtrip ⟨2024, 3, 1, 12, 30, 0, 123000000⟩ (by decide)
    (by decide)

/-- Modelled from the bson library (not under src/): `ObjectId::from_str`
accepts exactly 24-character hexadecimal strings. -/
def isValidObjectId (s : String) : Bool :=
  s.length == 24 && s.data.all (fun c => c.isDigit ||
    ('a' ≤ c && c ≤ 'f') || ('A' ≤ c && c ≤ 'F'))

/-- `ObjectId::from_str` as a partial function: object ids are modelled by
their canonical string form. -/
def objectIdFromStr (s : String) : Option String :=
  if isValidObjectId s then some s else none

/-- Value lookup in a BSON document modelled as an association list. -/
def lookupKey (d : List (String × BVal)) (k : String) : Option BVal :=
  (d.find? (fun kv => kv.1 == k)).map (fun kv => kv.2)

/-- `Bson::as_str`. -/
def asStr : BVal → Option String
  | .str s => some s
  | _ => none

/-- `serde_json::Value::as_u64`: a non-negative integer value. -/
def asU64 : BVal → Option Nat
  | .i64 n => if n < 0 then none else some n.toNat
  | _ => none

/-- One embedded import entry of a dataset document (db.rs 401-406 and
481-486): identity, creation time, originating filename, sheet index. -/
structure ImportDoc where
  id : String
  dt : Timestamp
  filename : String
  sheet_index : Nat
deriving DecidableEq, Repr

/-- One `datasets` document.  `created_at` is never read back by this core and
is omitted; `updated_at` is stored inside `options` (see `update_import`,
which inserts it into the options values). -/
structure DatasetDoc where
  id : String
  user_ref : String
  name : String
  title : String
  descr : String
  sheet_index : Nat
  options : List (String × BVal)
  imports : List ImportDoc
deriving DecidableEq, Repr

/-- `DataSetMatcher` (options.rs 194-197). -/
inductive DataSetMatcher where
  | NameIndex (name : String) (index : Nat)
  | Id (id : String)
deriving DecidableEq, Repr

/-- The filter document produced by `DataSetMatcher::to_criteria` (options.rs
208-224): either a name+sheet-index composite equality, or an `_id` equality
whose value is `ObjectId::from_str(id).ok()` — `none` (BSON null) when the id
string does not parse. -/
inductive DsCriteria where
  | byNameIndex (name : String) (index : Nat)
  | byId (oid : Option String)
deriving DecidableEq, Repr

/-- `DataSetMatcher::to_criteria` (options.rs 208-224). -/
def DataSetMatcher.to_criteria : DataSetMatcher → DsCriteria
  | .NameIndex n i => .byNameIndex n i
  | .Id id => .byId (objectIdFromStr id)

/-- Whether a dataset document satisfies a matcher filter.  A `null` `_id`
filter (unparsable id) matches no document. -/
def dsMatches (c : DsCriteria) (d : DatasetDoc) : Bool :=
  match c with
  | .byNameIndex n i => d.name == n && d.sheet_index == i
  | .byId (some o) => d.id == o
  | .byId none => false

/-- Replace the first list element satisfying `p` by its image under `f`
(`update_one` on the first matching document). -/
def updateFirst (p : DatasetDoc → Bool) (f : DatasetDoc → DatasetDoc) :
    List DatasetDoc → List DatasetDoc
  | [] => []
  | d :: rest => if p d then f d :: rest else d :: updateFirst p f rest

/-- `DB::update_record` (db.rs 221-285) on the `datasets` collection, with
`add = some ("imports", addDoc, oidOpt)` as called from `update_import`.
Finds the first document matching the filter; if none, returns the store
unchanged and no id.  If found, it builds `set_data` containing only
`options := values`.  When an import oid is supplied, the source looks up the
`"imports"` key inside `addDoc` itself (the binder `doc` at line 239 shadows
the found record), and the import documents passed here carry only the keys
`_id`/`dt`/`filename`/`sheet_index`, so the positional in-place replacement
never fires and the import list is left untouched.  When no oid is supplied,
`add_to_set` appends the hardcoded row
`(_id: fresh, dt: now, filename: "test", sheet_index: 0)` (db.rs 262-267).
Returns the found record's own `_id` (db.rs 277-279). -/
def updateRecord (store : List DatasetDoc) (filter : DsCriteria)
    (values : List (String × BVal)) (addDoc : List (String × BVal))
    (oidOpt : Option String) (freshRowId : String) (now : Timestamp) :
    List DatasetDoc × Option String :=
  match store.find? (fun d => dsMatches filter d) with
  | none => (store, none)
  | some d =>
    let f : DatasetDoc → DatasetDoc := fun d0 =>
      let d1 := { d0 with options := values }
      if oidOpt.isNone then
        { d1 with imports := d1.imports ++ [⟨freshRowId, now, "test", 0⟩] }
      else if (lookupKey addDoc "imports").isSome then
        -- a hit would additionally need the value to be an array of
        -- documents (`as_array`), of which the scalar universe has none, so
        -- the positional replacement still does nothing
        d1
      else
        d1
    (updateFirst (fun d0 => dsMatches filter d0) f store, some d.id)

/-- `DB::update_import` (db.rs 392-420): inserts `updated_at` into the options
values, reads the filename back out of the sanitized values (where it was
excluded, hence `""`) and the sheet index via `get_i32` (the value is stored
as `Int64`, so `get_i32` fails and defaults to 0), builds a fresh import
document from them, and calls `update_record`.  Whatever id `update_record`
produces is returned in BOTH positions of the `(dataset id, import id)`
pair (db.rs 415-418). -/
def updateImport (store : List DatasetDoc) (filter : DsCriteria)
    (values : List (String × BVal)) (importIdOpt : Option String)
    (freshImportId freshRowId : String) (now : Timestamp) :
    List DatasetDoc × List (String × BVal) × Option (String × String) :=
  let values2 := values ++ [("updated_at", BVal.dt now)]
  let name := ((lookupKey values2 "filename").bind asStr).getD ""
  let importDoc : List (String × BVal) :=
    [("_id", .oid freshImportId), ("dt", .dt now), ("filename", .str name),
      ("sheet_index", .i64 0)]
  let (store2, idOpt) :=
    updateRecord store filter values2 importDoc importIdOpt freshRowId now
  match idOpt with
  | some i => (store2, values2, some (i, i))
  | none => (store2, values2, none)

/-- The transport-only keys excluded from the sanitized options document
(db.rs 457). -/
def excludedKeys : List String :=
  ["dataset_id", "import_id", "filename", "title", "description", "user_ref"]

/-- The sanitized options document built at the top of `save_import` (db.rs
454-462). -/
def sanitizedOptions (options : List (String × BVal)) :
    List (String × BVal) :=
  options.filter (fun kv => !(excludedKeys.contains kv.1))

/-- The matcher choice of `save_import` (db.rs 463-473): the explicit dataset
id is used whenever the options carry a `dataset_id` string, whether or not it
parses; otherwise the (filename, sheet_index) composite matcher is used. -/
def chooseMatcher (options : List (String × BVal)) : DataSetMatcher :=
  match (lookupKey options "dataset_id").bind asStr with
  | some did => DataSetMatcher.Id did
  | none =>
    DataSetMatcher.NameIndex (((lookupKey options "filename").bind asStr).getD "")
      (((lookupKey options "sheet_index").bind asU64).getD 0)

/-- `DB::save_import` (db.rs 449-514).  `import_id.map (ObjectId::from_str
.unwrap)` at line 474 PANICS on a malformed import id string; the panic is
modelled as `Except.error`.  The four fresh-id parameters stand for the
`ObjectId::new()` calls: the discarded import document built by
`update_import`, the hardcoded `$addToSet` row, the insert-path import entry,
and the Mongo-generated `_id` of an inserted dataset. -/
def saveImport (options : List (String × BVal)) (importId : Option String)
    (store : List DatasetDoc)
    (freshImportId freshRowId freshInsImportId freshDatasetId : String)
    (now : Timestamp) :
    Except String (Option (String × String) × List DatasetDoc) := do
  let sanitized := sanitizedOptions options
  let fname := ((lookupKey options "filename").bind asStr).getD ""
  let userRef := ((lookupKey options "user_ref").bind asStr).getD ""
  let title := ((lookupKey options "title").bind asStr).getD ""
  let descr := ((lookupKey options "description").bind asStr).getD ""
  let sIndex := ((lookupKey options "sheet_index").bind asU64).getD 0
  let matcher := chooseMatcher options
  let importIdOpt ← match importId with
    | none => pure (Option.none (α := String))
    | some s =>
      match objectIdFromStr s with
      | some o => pure (some o)
      | none => Except.error "unwrap on ObjectId::from_str of malformed import id"
  let (store2, values2, res) :=
    updateImport store matcher.to_criteria sanitized importIdOpt freshImportId
      freshRowId now
  match res with
  | some ids => pure (some ids, store2)
  | none =>
    let importNew : ImportDoc := ⟨freshInsImportId, now, fname, sIndex⟩
    let newDs : DatasetDoc :=
      ⟨freshDatasetId, userRef, fname, title, descr, sIndex, values2,
        [importNew]⟩
    pure (some (freshDatasetId, freshInsImportId), store2 ++ [newDs])

/-- One stored `data_rows` document: `(dataset_id, import_id, data)`
(db.rs line 435). -/
structure RowDoc where
  dataset_id : String
  import_id : String
  data : List (String × BVal)
deriving DecidableEq, Repr

/-- `ReplaceMode` (options.rs 389-394). -/
inductive ReplaceMode where
  | ReplaceAll
  | ReplaceImport
  | Append
deriving DecidableEq, Repr

/-- `ReplaceMode::new(append, has_import_id)` (options.rs 396-406). -/
def ReplaceMode.new (append has_import_id : Bool) : ReplaceMode :=
  if append then .Append
  else if has_import_id then .ReplaceImport
  else .ReplaceAll

/-- `Document::contains_key` on a row document: its top-level keys are exactly
`dataset_id`, `import_id` and `data`. -/
def rowContainsKey (k : String) : Bool :=
  k == "dataset_id" || k == "import_id" || k == "data"

/-- Top-level `Document::get` on a row document, for the scalar-valued keys.
The `data` key holds the nested payload document, which the scalar value
universe cannot carry; a filter built from it can never equal a scalar payload
value, so the comparison below treats it as matching nothing. -/
def rowTopGet (r : RowDoc) (k : String) : Option BVal :=
  if k == "dataset_id" then some (.oid r.dataset_id)
  else if k == "import_id" then some (.oid r.import_id)
  else none

/-- The scalar field of a row document addressed by a `delete_by_id` filter
key (db.rs 652-654). -/
def rowFieldOid (r : RowDoc) (k : String) : Option String :=
  if k == "dataset_id" then some r.dataset_id
  else if k == "import_id" then some r.import_id
  else none

/-- Replace the first row satisfying `p` by `newDoc` (`update_one` with a
`$set` of all three row fields). -/
def updateFirstRow (p : RowDoc → Bool) (newDoc : RowDoc) :
    List RowDoc → List RowDoc
  | [] => []
  | r :: rest =>
    if p r then newDoc :: rest else r :: updateFirstRow p newDoc rest

/-- `update_by_inner_id` (db.rs 615-627).  The guard is
`update.contains_key(inner_pk)` on the WRAPPER document, whose keys are
`dataset_id`/`import_id`/`data` — the primary-key field itself lives nested
under `data`, so for a payload key the guard fails and no update is attempted.
Even when the guard holds, the executed `update_one` carries no upsert option,
so `cursor.upserted_id` (the returned value) is always `None`. -/
def updateByInnerId (store : List RowDoc) (inner_pk : String)
    (update : RowDoc) : List RowDoc × Option String :=
  if rowContainsKey inner_pk then
    let pkVal := rowTopGet update inner_pk
    let store2 := updateFirstRow
      (fun r => match pkVal with
        | some v => lookupKey r.data inner_pk == some v
        | none => false)
      update store
    (store2, none)
  else (store, none)

/-- `DB::insert_many` (db.rs 306-345): the optional scoped delete
(`delete_by_id`), then per-row primary-key upsert attempts (which, per
`updateByInnerId`, always return no id, so every row also gets inserted), or a
plain bulk insert.  Returns the new store and the size of the result map. -/
def insertMany (store : List RowDoc) (docs : List RowDoc)
    (data_pk : Option String) (delete_key_ref : Option (String × String)) :
    List RowDoc × Nat :=
  let store1 := match delete_key_ref with
    | some (fk, fkId) => store.filter (fun r => !(rowFieldOid r fk == some fkId))
    | none => store
  match data_pk with
  | some pk =>
    docs.foldl
      (fun acc row =>
        let (st2, idOpt) := updateByInnerId acc.1 pk row
        match idOpt with
        | some _ => (st2, acc.2 + 1)
        | none => (st2 ++ [row], acc.2 + 1))
      (store1, 0)
  | none => (store1 ++ docs, docs.length)

/-- The wrapped row documents built at the top of `save_rows` (db.rs
430-437): each payload is datetime-converted and wrapped with the resolved
dataset and import ids. -/
def wrapRows (dataset_id import_id : String)
    (rows : List (List (String × BVal))) : List RowDoc :=
  rows.map (fun r => ⟨dataset_id, import_id, convertDatetimeStrings r⟩)

/-- `DB::save_rows` (db.rs 422-447): wraps the rows, derives the scoped
delete key from the replace mode, and hands everything to `insert_many`. -/
def saveRows (dataset_id import_id : String)
    (rows : List (List (String × BVal))) (data_pk : Option String)
    (replace_mode : ReplaceMode) (store : List RowDoc) :
    List RowDoc × Nat :=
  let docs := wrapRows dataset_id import_id rows
  let delete_key_ref : Option (String × String) := match replace_mode with
    | .ReplaceAll => some ("dataset_id", dataset_id)
    | .ReplaceImport => some ("import_id", import_id)
    | .Append => none
  insertMany store docs data_pk delete_key_ref

/-- `DB::save_import_with_rows` (db.rs 516-538): reads the optional
`data_pk`, remembers whether an import id was supplied, resolves the
dataset/import ids through `save_import`, derives the replace mode and writes
the rows. -/
def saveImportWithRows (options : List (String × BVal))
    (rows : List (List (String × BVal))) (importIdOpt : Option String)
    (append : Bool) (dsStore : List DatasetDoc) (rowStore : List RowDoc)
    (freshImportId freshRowId freshInsImportId freshDatasetId : String)
    (now : Timestamp) :
    Except String
      (Option (String × String × Nat) × List DatasetDoc × List RowDoc) := do
  let dataPkOpt := (lookupKey options "data_pk").bind asStr
  let hasImportId := importIdOpt.isSome
  let (res, dsStore2) ← saveImport options importIdOpt dsStore freshImportId
    freshRowId freshInsImportId freshDatasetId now
  match res with
  | some (id, importId) =>
    let replaceMode := ReplaceMode.new append hasImportId
    let (rowStore2, count) :=
      saveRows id importId rows dataPkOpt replaceMode rowStore
    pure (some (id, importId, count), dsStore2, rowStore2)
  | none => pure (none, dsStore2, rowStore)

/-- `str::to_lowercase`, at the character-list level so that it reduces in
the kernel. -/
def lowerStr (s : String) : String := String.mk (s.data.map Char.toLower)

/-- ASCII whitespace, modelling the characters relevant to `str::trim` and the
`\s` regex class for the values exercised here. -/
def isWs (c : Char) : Bool :=
  c == ' ' || c == '\t' || c == '\n' || c == '\r'

/-- `str::trim`. -/
def trimChars (cs : List Char) : List Char :=
  ((cs.dropWhile isWs).reverse.dropWhile isWs).reverse

/-- Modelled from the spec (library `simple_string_patterns`, not under
src/): a raw value is lexically numeric when, after an optional sign, it is a
non-empty run of digits with at most one decimal point. -/
def isNumericStr (s : String) : Bool :=
  let cs := match s.data with
    | '-' :: r => r
    | '+' :: r => r
    | cs => cs
  !cs.isEmpty && cs.all (fun c => c.isDigit || c == '.') &&
    (cs.filter (fun c => c == '.')).length ≤ 1 && cs.any Char.isDigit

/-- `str::parse::<i64>`: optional sign, decimal digits, 64-bit range. -/
def parseI64 (s : String) : Option Int :=
  let (neg, ds) : Bool × List Char := match s.data with
    | '-' :: r => (true, r)
    | '+' :: r => (false, r)
    | cs => (false, cs)
  if !ds.isEmpty && ds.all Char.isDigit then
    let v : Int := if neg then -(digitsVal ds : Int) else (digitsVal ds : Int)
    if -(2 ^ 63) ≤ v ∧ v < 2 ^ 63 then some v else none
  else none

/-- `str::parse::<f64>` restricted to plain decimal literals (optional sign,
digits, optional fraction), the only shapes any theorem touches; the value is
carried exactly as a rational. -/
def parseF64 (s : String) : Option Rat :=
  let (neg, cs) : Bool × List Char := match s.data with
    | '-' :: r => (true, r)
    | '+' :: r => (false, r)
    | cs => (false, cs)
  let intPart := cs.takeWhile Char.isDigit
  let rest := cs.dropWhile Char.isDigit
  let build : List Char → Option Rat := fun frac =>
    if intPart.isEmpty && frac.isEmpty then none
    else
      let q : Rat := (digitsVal intPart : Rat) +
        (digitsVal frac : Rat) / ((10 : Rat) ^ frac.length)
      some (if neg then -q else q)
  match rest with
  | [] => build []
  | '.' :: frac => if frac.all Char.isDigit then build frac else none
  | _ => none

/-- Modelled from the spec (library `fuzzy_datetime`, not under src/): a raw
value looks date-like when it starts with a `YYYY-MM-DD` shape under loose ISO
rules. -/
def isDatetimeLike (s : String) : Bool :=
  match s.data with
  | a :: b :: c :: d :: '-' :: e :: f :: '-' :: g :: h :: _ =>
    [a, b, c, d, e, f, g, h].all Char.isDigit
  | _ => false

/-- Modelled from the spec (library `fuzzy_datetime`, not under src/):
`iso_fuzzy_string_to_datetime` parses the `YYYY-MM-DD` date, an optional
`THH:MM` or `THH:MM:SS` time (missing parts default to zero), and validates
the component ranges. -/
def isoFuzzyStringToDatetime (s : String) : Option Timestamp :=
  match s.data with
  | a :: b :: c :: d :: '-' :: e :: f :: '-' :: g :: h :: rest =>
    if [a, b, c, d, e, f, g, h].all Char.isDigit then
      let timeOf : List Char → Option (Nat × Nat × Nat) := fun cs =>
        match cs with
        | [] => some (0, 0, 0)
        | sep :: h1 :: h2 :: ':' :: n1 :: n2 :: more =>
          if (sep == 'T' || sep == ' ') &&
              [h1, h2, n1, n2].all Char.isDigit then
            match more with
            | [] => some (val2 h1 h2, val2 n1 n2, 0)
            | ':' :: s1 :: s2 :: [] =>
              if [s1, s2].all Char.isDigit then
                some (val2 h1 h2, val2 n1 n2, val2 s1 s2)
              else none
            | _ => none
          else none
        | _ => none
      match timeOf rest with
      | some (hh, mm, ss) =>
        let t : Timestamp := ⟨val4 a b c d, val2 e f, val2 g h, hh, mm, ss, 0⟩
        if validTimestamp t then some t else none
      | none => none
    else none
  | _ => none

/-- Modelled from the spec (library `spreadsheet_to_json`, not under src/):
`is_truthy_core(value, false)` recognises the truthy/falsy token set
`true/false/yes/no/1/0/...` case-insensitively and answers `none` for
anything else. -/
def isTruthyCore (s : String) : Option Bool :=
  let t := lowerStr (String.mk (trimChars s.data))
  if t == "true" || t == "yes" || t == "y" || t == "t" || t == "1" then
    some true
  else if t == "false" || t == "no" || t == "n" || t == "f" || t == "0" then
    some false
  else none

/-- `CastDataType` (options.rs 331-339); constructor names are lowercased to
avoid clashing with the Lean base types. -/
inductive CastDataType where
  | string
  | float
  | integer
  | date
  | datetime
  | boolean
deriving DecidableEq, Repr

/-- `CastDataType::from_str` (options.rs 342-351). -/
def CastDataType.from_key (key : String) : CastDataType :=
  match lowerStr key with
  | "float" => .float
  | "number" => .float
  | "int" => .integer
  | "integer" => .integer
  | "date" => .date
  | "datetime" => .datetime
  | "bool" => .boolean
  | "boolean" => .boolean
  | _ => .string

/-- `CastDataType::is_numeric` (options.rs 353-358). -/
def CastDataType.isNumericType : CastDataType → Bool
  | .float => true
  | .integer => true
  | _ => false

/-- `CastDataType::is_integer` (options.rs 381-386). -/
def CastDataType.isIntegerType : CastDataType → Bool
  | .integer => true
  | _ => false

/-- The right-hand side of a comparison document produced by the criteria
builder. -/
inductive CmpVal where
  | cInt (n : Int)
  | cFloat (q : Rat)
  | cBool (b : Bool)
  | cDt (t : Timestamp)
  | cStr (s : String)
  | cStrList (l : List String)
deriving DecidableEq, Repr

/-- `cast_to_comparison(op, value, dt)` (options.rs 408-432), translated
branch for branch: the numeric arm is entered when the value is lexically
numeric OR the declared type is numeric, and a failed parse falls through to
the final raw-string return; the date arm is entered only otherwise, with the
same fallthrough; the boolean arm only when neither predicate held. -/
def castToComparison (op : String) (value : String) (dt : CastDataType) :
    List (String × CmpVal) :=
  if isNumericStr value || dt.isNumericType then
    if dt.isIntegerType then
      match parseI64 value with
      | some n => [(op, .cInt n)]
      | none => [(op, .cStr value)]
    else
      match parseF64 value with
      | some q => [(op, .cFloat q)]
      | none => [(op, .cStr value)]
  else if isDatetimeLike value then
    match isoFuzzyStringToDatetime value with
    | some t => [(op, .cDt t)]
    | none => [(op, .cStr value)]
  else
    match isTruthyCore value with
    | some b => [(op, .cBool b)]
    | none => [(op, .cStr value)]

/-- The cascade exactly as claim C6 words it: an ordered chain that stops at
the FIRST SUCCESS — if the numeric attempt (entered when the value is
lexically numeric or the declared type is numeric) fails to parse, the
date-like step is still tried, then the truthy/falsy step, and only then the
raw string. -/
def castClaimCascade (op : String) (value : String) (dt : CastDataType) :
    List (String × CmpVal) :=
  let step1 : Option CmpVal :=
    if isNumericStr value || dt.isNumericType then
      if dt.isIntegerType then (parseI64 value).map CmpVal.cInt
      else (parseF64 value).map CmpVal.cFloat
    else none
  let step2 : Option CmpVal :=
    if isDatetimeLike value then
      (isoFuzzyStringToDatetime value).map CmpVal.cDt
    else none
  let step3 : Option CmpVal := (isTruthyCore value).map CmpVal.cBool
  [(op, (((step1.orElse (fun _ => step2)).orElse (fun _ => step3)).getD
    (CmpVal.cStr value)))]

/-- The amended cascade: the branches are selected by predicates evaluated
top-to-bottom (numeric-ish, then date-like, then truthy), and a SELECTED
branch whose parse fails falls back directly to the raw string — later
branches are not tried. -/
def castAmendedCascade (op : String) (value : String) (dt : CastDataType) :
    List (String × CmpVal) :=
  let result : CmpVal :=
    if isNumericStr value || dt.isNumericType then
      ((if dt.isIntegerType then (parseI64 value).map CmpVal.cInt
        else (parseF64 value).map CmpVal.cFloat)).getD (.cStr value)
    else if isDatetimeLike value then
      ((isoFuzzyStringToDatetime value).map CmpVal.cDt).getD (.cStr value)
    else
      ((isTruthyCore value).map CmpVal.cBool).getD (.cStr value)
  [(op, result)]

/-- `strip_non_alphanum` (library `simple_string_patterns`): keep only
alphanumeric characters. -/
def stripNonAlphanum (s : String) : String :=
  String.mk (s.data.filter Char.isAlphanum)

/-- Modelled from the spec (library `simple_string_patterns`, not under
src/): `to_parts(",")` splits the raw value on commas into a list of
strings. -/
def toParts (s : String) : List String := s.splitOn ","

/-- `str::trim` on a String. -/
def trimStr (s : String) : String := String.mk (trimChars s.data)

/-- `str::replace(target, rep)`: single left-to-right pass over the input;
replacement text is not rescanned. -/
def replaceChar (target : Char) (rep : List Char) : List Char → List Char
  | [] => []
  | c :: rest =>
    if c == target then rep ++ replaceChar target rep rest
    else c :: replaceChar target rep rest

/-- `str_to_like_pattern` (options.rs 459-461), character for character:
`.` is replaced by the THREE characters `.\.` (an unescaped any-char dot
followed by an escaped dot), `?` by `.\?`, `%` by `.*?`, the result is
trimmed and wrapped in `^\s*` and `\s*$`. -/
def strToLikePattern (value : String) : String :=
  let s1 := replaceChar '.' ['.', '\\', '.'] value.data
  let s2 := replaceChar '?' ['.', '\\', '?'] s1
  let s3 := replaceChar '%' ['.', '*', '?'] s2
  String.mk (('^' :: '\\' :: 's' :: '*' :: []) ++ trimChars s3 ++
    ('\\' :: 's' :: '*' :: '$' :: []))

/-- The single-field filter of `QueryFilterParams::to_criteria` (options.rs
244-274): the operator key is lowercased and stripped to alphanumerics,
mapped over the operator table, and the comparison document is scoped under
the fixed `data.` prefix.  Returns `none` when the field or value parameter
is absent. -/
def toCriteria (f v o dtKey : Option String) :
    Option (String × List (String × CmpVal)) :=
  match f, v with
  | some field, some value =>
    let dataType := CastDataType.from_key (dtKey.getD "string")
    let operator := stripNonAlphanum (lowerStr (o.getD "eq"))
    let cv : List (String × CmpVal) :=
      match operator with
      | "ne" => castToComparison "$ne" value dataType
      | "gt" => castToComparison "$gt" value dataType
      | "gte" => castToComparison "$gte" value dataType
      | "lt" => castToComparison "$lt" value dataType
      | "lte" => castToComparison "$lte" value dataType
      | "in" => [("$in", .cStrList (toParts value))]
      | "nin" => [("$nin", .cStrList (toParts value))]
      | "r" | "regex" | "regexp" | "rgx" =>
        [("$regex", .cStr value), ("$options", .cStr "i")]
      | "rcs" | "rc" | "regexc" | "regexpc" | "rgxc" =>
        [("$regex", .cStr value)]
      | "like" | "l" =>
        [("$regex", .cStr (strToLikePattern value)), ("$options", .cStr "i")]
      | "starts" | "startswith" =>
        [("$regex", .cStr ("^" ++ trimStr value)), ("$options", .cStr "i")]
      | "ends" | "endswith" =>
        [("$regex", .cStr (trimStr value ++ "$")), ("$options", .cStr "i")]
      | _ => castToComparison "$eq" value dataType
    some ("data." ++ field, cv)
  | _, _ => none

/-- Token alphabet of the regex patterns `str_to_like_pattern` emits: literal
characters, the any-character dot, the `\s*` whitespace run and the `.*?`
lazy wildcard run. -/
inductive LikeTok where
  | lit (c : Char)
  | anyChar
  | wsStar
  | lazyStar
deriving DecidableEq, Repr

/-- Scanner for the emitted like-patterns into their token list.  The `^` and
`$` anchors (which the builder places at the two ends) are dropped because the
matcher below is whole-value. -/
def scanLike : List Char → List LikeTok
  | '\\' :: 's' :: '*' :: rest => .wsStar :: scanLike rest
  | '\\' :: c :: rest => .lit c :: scanLike rest
  | '.' :: '*' :: '?' :: rest => .lazyStar :: scanLike rest
  | '.' :: rest => .anyChar :: scanLike rest
  | '^' :: rest => scanLike rest
  | '$' :: rest => scanLike rest
  | c :: rest => .lit c :: scanLike rest
  | [] => []

/-- Whole-value regex matching for the token language above, with explicit
fuel (every recursive call shrinks tokens+input, so
`tokens.length + input.length + 1` fuel is exact). -/
def toksMatch : Nat → List LikeTok → List Char → Bool
  | 0, _, _ => false
  | _ + 1, [], [] => true
  | _ + 1, [], _ :: _ => false
  | fuel + 1, .lit c :: ts, ds =>
    match ds with
    | d :: ds2 => c == d && toksMatch fuel ts ds2
    | [] => false
  | fuel + 1, .anyChar :: ts, ds =>
    match ds with
    | _ :: ds2 => toksMatch fuel ts ds2
    | [] => false
  | fuel + 1, .wsStar :: ts, ds =>
    toksMatch fuel ts ds ||
      (match ds with
       | d :: ds2 => isWs d && toksMatch fuel (.wsStar :: ts) ds2
       | [] => false)
  | fuel + 1, .lazyStar :: ts, ds =>
    toksMatch fuel ts ds ||
      (match ds with
       | _ :: ds2 => toksMatch fuel (.lazyStar :: ts) ds2
       | [] => false)

/-- Case-insensitive anchored whole-value match of an emitted like-pattern
against a value (the `$options: i` flag is modelled by lowercasing both
sides). -/
def likeMatches (pattern value : String) : Bool :=
  let ts := scanLike (lowerStr pattern).data
  let ds := (lowerStr value).data
  toksMatch (ts.length + ds.length + 1) ts ds

/-- `DB::fetch_dataset` (db.rs 192-219), restricted to the identifier gates
and the row filter the claims exercise: a dataset id that fails
`ObjectId::from_str` yields `None`; an import id that fails to parse is
silently dropped from the row criteria; pagination, sorting and the merge of
extra document-shaped filter fragments are not modelled. -/
def fetchDataset (dataset_id : String) (import_id_opt : Option String)
    (dsStore : List DatasetDoc) (rowStore : List RowDoc) :
    Option (DatasetDoc × List (List (String × BVal))) :=
  match objectIdFromStr dataset_id with
  | none => none
  | some oid =>
    match dsStore.find? (fun d => d.id == oid) with
    | none => none
    | some dset =>
      let impFilter := import_id_opt.bind objectIdFromStr
      let keep : RowDoc → Bool := fun r =>
        r.dataset_id == oid &&
          (match impFilter with
           | some impId => r.import_id == impId
           | none => true)
      some (dset, (rowStore.filter keep).map RowDoc.data)

/-- A fixed concrete timestamp used by the concrete runs below. -/
def t0 : Timestamp := ⟨2024, 1, 1, 0, 0, 0, 0⟩

/-- Existing row store for the primary-key upsert scenario: one row whose
payload key `id` has value 1. -/
def c1Row : RowDoc := ⟨"d1", "i1", [("id", BVal.i64 1), ("v", BVal.str "old")]⟩

def c1Store : List RowDoc := [c1Row]

/-- The incoming payload with the same primary-key value. -/
def c1Payload : List (String × BVal) := [("id", BVal.i64 1), ("v", BVal.str "neu")]

/-- C1 (code bug): with a declared primary key `id` and an existing row whose
`data.id` equals the incoming key value, the save still INSERTS a duplicate
row — the scope's row count grows from 1 to 2 — because `update_by_inner_id`
tests `contains_key` on the wrapper document (whose keys are
dataset_id/import_id/data, never the payload key) and reads `upserted_id`
from a plain non-upsert `update_one`, so the in-place update never
happens. -/
theorem c1_pk_upsert_inserts_duplicate :
    (saveRows "d1" "i1" [c1Payload] (some "id") ReplaceMode.Append c1Store).1
      = c1Store ++ [⟨"d1", "i1", c1Payload⟩] ∧
    lookupKey c1Row.data "id" = some (BVal.i64 1) ∧
    lookupKey c1Payload "id" = some (BVal.i64 1) ∧
    c1Store.length = 1 ∧
    (saveRows "d1" "i1" [c1Payload] (some "id") ReplaceMode.Append
      c1Store).1.length = 2 ∧
    updateByInnerId c1Store "id" ⟨"d1", "i1", c1Payload⟩ = (c1Store, none) := by
  refine ⟨rfl, rfl, rfl, rfl, rfl, rfl⟩

/-- Core options document for the double-save scenario (the JSON produced by
`CoreOptions::to_json_value` for a plain upload, as consumed by
`save_import`). -/
def c3Options : List (String × BVal) :=
  [("filename", BVal.str "book.xlsx"), ("title", BVal.str "T"),
    ("description", BVal.str "D"), ("user_ref", BVal.str "u1"),
    ("sheet_index", BVal.i64 0), ("mode", BVal.str "sync"),
    ("append", BVal.bool false)]

/-- The dataset document created by the first save. -/
def c3Ds1 : DatasetDoc :=
  ⟨"d1", "u1", "book.xlsx", "T", "D", 0,
    [("sheet_index", BVal.i64 0), ("mode", BVal.str "sync"),
      ("append", BVal.bool false), ("updated_at", BVal.dt t0)],
    [⟨"i1", t0, "book.xlsx", 0⟩]⟩

/-- The dataset document after the second save: a second import entry has
been appended, but it is the HARDCODED row `(filename "test", sheet 0)` with
the fresh id "fD" — not the import document the caller built. -/
def c3Ds2 : DatasetDoc :=
  { c3Ds1 with imports := [⟨"i1", t0, "book.xlsx", 0⟩, ⟨"fD", t0, "test", 0⟩] }

/-- C3 (code bug): two consecutive saves with the same (name, sheet_index)
and no explicit identifiers do resolve to the same dataset id "d1" (no second
dataset is created) and the second save does append a second import entry —
but the second save returns the DATASET's own id "d1" as the import id
(`update_record` returns the record's `_id`, which `update_import` copies
into both positions), not the appended entry's id "fD"; the appended entry is
moreover the hardcoded debug row with filename "test". -/
theorem c3_second_save_import_id_bug :
    saveImport c3Options none [] "fA" "fB" "i1" "d1" t0
      = .ok (some ("d1", "i1"), [c3Ds1]) ∧
    saveImport c3Options none [c3Ds1] "fC" "fD" "i2" "d2" t0
      = .ok (some ("d1", "d1"), [c3Ds2]) ∧
    c3Ds2.imports.map ImportDoc.id = ["i1", "fD"] ∧
    c3Ds2.imports.map ImportDoc.filename = ["book.xlsx", "test"] ∧
    ("d1" : String) ≠ "fD" := by
  refine ⟨rfl, rfl, rfl, rfl, by decide⟩

/-- An existing dataset with an old title/description. -/
def c4Ds : DatasetDoc :=
  ⟨"d1", "u", "book.xlsx", "old title", "old descr", 0, [],
    [⟨"i1", t0, "book.xlsx", 0⟩]⟩

/-- Incoming options carrying a NEW title and description for the same
(filename, sheet_index). -/
def c4Options : List (String × BVal) :=
  [("filename", BVal.str "book.xlsx"), ("title", BVal.str "new title"),
    ("description", BVal.str "new descr"), ("user_ref", BVal.str "u"),
    ("sheet_index", BVal.i64 0)]

/-- The dataset after the matching save: only `options` was replaced. -/
def c4DsAfter : DatasetDoc :=
  { c4Ds with
    options := [("sheet_index", BVal.i64 0), ("updated_at", BVal.dt t0)],
    imports := [⟨"i1", t0, "book.xlsx", 0⟩, ⟨"fB", t0, "test", 0⟩] }

/-- C4 counterexample: a save that matches an existing dataset and carries
the new title "new title" leaves the stored title at "old title" — name,
title and description are NOT overwritten (only the options document is
replaced), contradicting the claim. -/
theorem c4_counterexample_title_not_overwritten :
    saveImport c4Options none [c4Ds] "fA" "fB" "i2" "d2" t0
      = .ok (some ("d1", "d1"), [c4DsAfter]) ∧
    lookupKey c4Options "title" = some (BVal.str "new title") ∧
    c4DsAfter.title = "old title" ∧
    c4DsAfter.title ≠ "new title" ∧
    c4DsAfter.descr = "old descr" := by
  refine ⟨rfl, rfl, rfl, by decide, rfl⟩

/-- A syntactically valid object id (24 hex characters). -/
def oidA : String := "aaaaaaaaaaaaaaaaaaaaaaaa"

def c5Ds : DatasetDoc := ⟨oidA, "u", "f.csv", "", "", 0, [], []⟩

def c5Row : RowDoc := ⟨oidA, "bbbbbbbbbbbbbbbbbbbbbbbb", [("x", BVal.i64 1)]⟩

/-- C5 (code bug): a malformed dataset id at the fetch path is treated as
NotFound and a malformed import id inside a fetch is silently dropped, as the
claim says — but a malformed import id supplied to a SAVE panics
(`ObjectId::from_str(&id).unwrap()` at db.rs line 474), so the persistence
core does crash on bad input. -/
theorem c5_save_panics_on_malformed_import_id :
    saveImport c3Options (some "zzz") [] "fA" "fB" "i1" "d1" t0
      = .error "unwrap on ObjectId::from_str of malformed import id" ∧
    fetchDataset "zzz" none [c5Ds] [c5Row] = none ∧
    fetchDataset oidA (some "zzz") [c5Ds] [c5Row]
      = some (c5Ds, [[("x", BVal.i64 1)]]) := by
  refine ⟨rfl, rfl, rfl⟩

/-- C7 (code bug): the emitted like-pattern for "a.b" is `^\s*a.\.b\s*$` —
the dot is replaced by `.\.` (unescaped any-char dot plus escaped dot), not
by `\.` — so the pattern does NOT match the literal value `a.b` (it needs
four characters) and DOES match `ax.b`; the `%` wildcard half of the claim
holds: `50%` compiles to `^\s*50.*?\s*$`, matching `50` with any trailing
characters. -/
theorem c7_like_dot_escape_bug :
    strToLikePattern "a.b" = "^\\s*a.\\.b\\s*$" ∧
    likeMatches (strToLikePattern "a.b") "a.b" = false ∧
    likeMatches (strToLikePattern "a.b") "ax.b" = true ∧
    strToLikePattern "50%" = "^\\s*50.*?\\s*$" ∧
    likeMatches (strToLikePattern "50%") "50" = true ∧
    likeMatches (strToLikePattern "50%") "50 rows" = true ∧
    toCriteria (some "price") (some "50%") (some "like") none
      = some ("data.price",
          [("$regex", .cStr "^\\s*50.*?\\s*$"), ("$options", .cStr "i")]) := by
  refine ⟨rfl, by decide, by decide, rfl, by decide, by decide, rfl⟩

/-- The matcher choice exactly as claim C8 words it: the explicit dataset
identifier is used when it is supplied AND parses as a valid identifier;
otherwise the (filename, sheet_index) matcher is used. -/
def chooseMatcherClaim (options : List (String × BVal)) : DataSetMatcher :=
  let nameIdx := DataSetMatcher.NameIndex
    (((lookupKey options "filename").bind asStr).getD "")
    (((lookupKey options "sheet_index").bind asU64).getD 0)
  match (lookupKey options "dataset_id").bind asStr with
  | some did => if isValidObjectId did then DataSetMatcher.Id did else nameIdx
  | none => nameIdx

/-- Options carrying a supplied but unparsable dataset id. -/
def c8Options : List (String × BVal) :=
  [("dataset_id", BVal.str "xyz"), ("filename", BVal.str "f.csv"),
    ("sheet_index", BVal.i64 0)]

/-- C8 counterexample: for a supplied dataset id "xyz" that does NOT parse as
a valid identifier, the code still chooses the identifier matcher, while the
claim prescribes the (filename, sheet_index) matcher. -/
theorem c8_counterexample_invalid_id_still_used :
    chooseMatcher c8Options = DataSetMatcher.Id "xyz" ∧
    isValidObjectId "xyz" = false ∧
    chooseMatcherClaim c8Options = DataSetMatcher.NameIndex "f.csv" 0 ∧
    DataSetMatcher.Id "xyz" ≠ DataSetMatcher.NameIndex "f.csv" 0 := by
  refine ⟨rfl, rfl, rfl, by decide⟩

/-- C8 amended: exactly one matcher variant is chosen per save — the
identifier matcher whenever a dataset id string is supplied (whether or not
it parses; an unparsable id produces a null `_id` filter that matches no
dataset), and the name+index matcher otherwise. -/
theorem c8_matcher_choice (options : List (String × BVal)) :
    (∀ did, (lookupKey options "dataset_id").bind asStr = some did →
      chooseMatcher options = DataSetMatcher.Id did) ∧
    ((lookupKey options "dataset_id").bind asStr = none →
      chooseMatcher options = DataSetMatcher.NameIndex
        (((lookupKey options "filename").bind asStr).getD "")
        (((lookupKey options "sheet_index").bind asU64).getD 0)) ∧
    (∀ s, isValidObjectId s = false →
      (DataSetMatcher.Id s).to_criteria = DsCriteria.byId none) ∧
    (∀ d, dsMatches (DsCriteria.byId none) d = false) := by
  refine ⟨?_, ?_, ?_, ?_⟩
  · intro did h
    unfold chooseMatcher
    rw [h]
  · intro h
    unfold chooseMatcher
    rw [h]
  · intro s h
    unfold DataSetMatcher.to_criteria objectIdFromStr
    simp [h]
  · intro d
    rfl

/-- Witness for C8's amended theorem at the concrete options of the
counterexample. -/
theorem c8_matcher_choice_witness :
    chooseMatcher c8Options = DataSetMatcher.Id "xyz" ∧
    (DataSetMatcher.Id "xyz").to_criteria = DsCriteria.byId none :=
  ⟨(c8_matcher_choice c8Options).1 "xyz" (by rfl),
    (c8_matcher_choice c8Options).2.2.1 "xyz" (by rfl)⟩

lemma updateByInnerId_no_guard (store : List RowDoc) (pk : String)
    (row : RowDoc) (hpk : rowContainsKey pk = false) :
    updateByInnerId store pk row = (store, none) := by
  unfold updateByInnerId
  simp [hpk]

lemma insertMany_pk_fold (pk : String) (hpk : rowContainsKey pk = false)
    (docs : List RowDoc) :
    ∀ (st : List RowDoc) (n : Nat),
      docs.foldl
        (fun acc row =>
          let (st2, idOpt) := updateByInnerId acc.1 pk row
          match idOpt with
          | some _ => (st2, acc.2 + 1)
          | none => (st2 ++ [row], acc.2 + 1))
        (st, n) = (st ++ docs, n + docs.length) := by
  induction docs with
  | nil => intro st n; simp
  | cons d rest ih =>
    intro st n
    simp only [List.foldl_cons, updateByInnerId_no_guard st pk d hpk]
    rw [ih (st ++ [d]) (n + 1)]
    refine Prod.ext ?_ ?_
    · simp
    · simp only [List.length_cons]
      omega

/-- `insert_many` under a primary key that is not one of the wrapper-document
keys (every payload primary key): the scoped delete runs and every document is
inserted. -/
lemma insertMany_characterisation (store docs : List RowDoc)
    (pk? : Option String) (dkr : Option (String × String))
    (hpk : ∀ pk, pk? = some pk → rowContainsKey pk = false) :
    insertMany store docs pk? dkr =
      ((match dkr with
        | some (fk, fkId) =>
          store.filter (fun r => !(rowFieldOid r fk == some fkId))
        | none => store) ++ docs, docs.length) := by
  unfold insertMany
  cases pk? with
  | none => rfl
  | some pk =>
    simp only
    rw [insertMany_pk_fold pk (hpk pk rfl) docs _ 0]
    simp

lemma rowFieldOid_dataset (r : RowDoc) :
    rowFieldOid r "dataset_id" = some r.dataset_id := rfl

lemma rowFieldOid_import (r : RowDoc) :
    rowFieldOid r "import_id" = some r.import_id := rfl

/-- C2: the replace mode is derived from the two booleans with the claimed
precedence, and each mode deletes exactly the claimed scope: `append=true`
gives Append and deletes nothing (the prior store survives as a prefix);
`append=false` with an import id gives ReplaceImport and removes exactly the
rows whose `import_id` equals the resolved import id; `append=false` without
an import id gives ReplaceAll and removes exactly the rows whose `dataset_id`
equals the resolved dataset id.  In every case the wrapped incoming rows are
appended. -/
theorem c2_replace_mode_semantics (append has_import_id : Bool)
    (dsId impId : String) (rows : List (List (String × BVal)))
    (pk? : Option String) (store : List RowDoc)
    (hpk : ∀ pk, pk? = some pk → rowContainsKey pk = false) :
    (append = true →
      ReplaceMode.new append has_import_id = ReplaceMode.Append ∧
      (saveRows dsId impId rows pk? (ReplaceMode.new append has_import_id)
          store).1 = store ++ wrapRows dsId impId rows) ∧
    (append = false → has_import_id = true →
      ReplaceMode.new append has_import_id = ReplaceMode.ReplaceImport ∧
      (saveRows dsId impId rows pk? (ReplaceMode.new append has_import_id)
          store).1
        = store.filter (fun r => !(r.import_id == impId))
            ++ wrapRows dsId impId rows) ∧
    (append = false → has_import_id = false →
      ReplaceMode.new append has_import_id = ReplaceMode.ReplaceAll ∧
      (saveRows dsId impId rows pk? (ReplaceMode.new append has_import_id)
          store).1
        = store.filter (fun r => !(r.dataset_id == dsId))
            ++ wrapRows dsId impId rows) := by
  refine ⟨?_, ?_, ?_⟩
  · intro ha
    subst ha
    refine ⟨rfl, ?_⟩
    unfold saveRows
    rw [insertMany_characterisation _ _ _ _ hpk]
    rfl
  · intro ha hi
    subst ha
    subst hi
    refine ⟨rfl, ?_⟩
    unfold saveRows
    rw [insertMany_characterisation _ _ _ _ hpk]
    rfl
  · intro ha hi
    subst ha
    subst hi
    refine ⟨rfl, ?_⟩
    unfold saveRows
    rw [insertMany_characterisation _ _ _ _ hpk]
    rfl

/-- Witness for C2 at a concrete ReplaceImport save: the store holds one row
of import `iX` and one of import `iY`, the save targets import `iX` with a
payload primary key `id`. -/
theorem c2_replace_mode_semantics_witness :
    (false = true →
      ReplaceMode.new false true = ReplaceMode.Append ∧
      (saveRows "dA" "iX" [[("id", BVal.i64 7)]] (some "id")
          (ReplaceMode.new false true)
          [⟨"dA", "iX", []⟩, ⟨"dA", "iY", []⟩]).1
        = [⟨"dA", "iX", []⟩, ⟨"dA", "iY", []⟩]
            ++ wrapRows "dA" "iX" [[("id", BVal.i64 7)]]) ∧
    (false = false → true = true →
      ReplaceMode.new false true = ReplaceMode.ReplaceImport ∧
      (saveRows "dA" "iX" [[("id", BVal.i64 7)]] (some "id")
          (ReplaceMode.new false true)
          [⟨"dA", "iX", []⟩, ⟨"dA", "iY", []⟩]).1
        = ([⟨"dA", "iX", []⟩, ⟨"dA", "iY", []⟩] :
            List RowDoc).filter (fun r => !(r.import_id == "iX"))
            ++ wrapRows "dA" "iX" [[("id", BVal.i64 7)]]) ∧
    (false = false → true = false →
      ReplaceMode.new false true = ReplaceMode.ReplaceAll ∧
      (saveRows "dA" "iX" [[("id", BVal.i64 7)]] (some "id")
          (ReplaceMode.new false true)
          [⟨"dA", "iX", []⟩, ⟨"dA", "iY", []⟩]).1
        = ([⟨"dA", "iX", []⟩, ⟨"dA", "iY", []⟩] :
            List RowDoc).filter (fun r => !(r.dataset_id == "dA"))
            ++ wrapRows "dA" "iX" [[("id", BVal.i64 7)]]) :=
  c2_replace_mode_semantics false true "dA" "iX" [[("id", BVal.i64 7)]]
    (some "id") [⟨"dA", "iX", []⟩, ⟨"dA", "iY", []⟩]
    (by intro pk h; injection h with h2; rw [h2.symm]; decide)

lemma updateFirst_congr (p : DatasetDoc → Bool) (f g : DatasetDoc → DatasetDoc)
    (h : ∀ x, f x = g x) : ∀ l, updateFirst p f l = updateFirst p g l := by
  intro l
  induction l with
  | nil => rfl
  | cons d rest ih =>
    unfold updateFirst
    rw [h d, ih]

lemma updateFirst_map {β : Type} (p : DatasetDoc → Bool)
    (f : DatasetDoc → DatasetDoc) (g : DatasetDoc → β)
    (h : ∀ x, g (f x) = g x) : ∀ l, (updateFirst p f l).map g = l.map g := by
  intro l
  induction l with
  | nil => rfl
  | cons d rest ih =>
    unfold updateFirst
    by_cases hp : p d = true
    · simp [hp, h d]
    · simp only [hp]
      simp [ih]

/-- The update a matching save actually performs on the matched dataset
document: the options document is replaced wholesale by the sanitized
incoming options plus an `updated_at` stamp; when no import id was supplied
the hardcoded debug import row is appended; id, user_ref, name, title,
description, sheet_index — and, with an import id, the import list — are left
unchanged. -/
def amendedUpdate (options : List (String × BVal)) (importId : Option String)
    (fB : String) (now : Timestamp) (d0 : DatasetDoc) : DatasetDoc :=
  { d0 with
    options := sanitizedOptions options ++ [("updated_at", BVal.dt now)],
    imports := d0.imports ++
      (if importId.isSome then [] else [⟨fB, now, "test", 0⟩]) }

lemma updateRecord_found (store : List DatasetDoc) (filter : DsCriteria)
    (values : List (String × BVal)) (addDoc : List (String × BVal))
    (oidOpt : Option String) (fB : String) (now : Timestamp) (d : DatasetDoc)
    (hfind : store.find? (fun d0 => dsMatches filter d0) = some d) :
    updateRecord store filter values addDoc oidOpt fB now =
      (updateFirst (fun d0 => dsMatches filter d0)
        (fun d0 =>
          { d0 with
            options := values,
            imports := d0.imports ++
              (if oidOpt.isSome then [] else [⟨fB, now, "test", 0⟩]) })
        store, some d.id) := by
  unfold updateRecord
  rw [hfind]
  simp only
  congr 1
  apply updateFirst_congr
  intro x
  cases oidOpt with
  | none => rfl
  | some s =>
    simp only [Option.isNone_some, Bool.false_eq_true, if_false,
      Option.isSome_some, if_true, ite_self]
    simp [List.append_nil]

lemma updateImport_found (store : List DatasetDoc) (filter : DsCriteria)
    (values : List (String × BVal)) (importIdOpt : Option String)
    (fA fB : String) (now : Timestamp) (d : DatasetDoc)
    (hfind : store.find? (fun d0 => dsMatches filter d0) = some d) :
    updateImport store filter values importIdOpt fA fB now =
      (updateFirst (fun d0 => dsMatches filter d0)
        (fun d0 =>
          { d0 with
            options := values ++ [("updated_at", BVal.dt now)],
            imports := d0.imports ++
              (if importIdOpt.isSome then [] else [⟨fB, now, "test", 0⟩]) })
        store,
       values ++ [("updated_at", BVal.dt now)], some (d.id, d.id)) := by
  unfold updateImport
  simp only [updateRecord_found _ _ _ _ _ _ _ d hfind]

/-- C4 amended: on every save that matches an existing dataset, the update
overwrites ONLY the dataset's options (a full replace by the sanitized
incoming options plus an `updated_at` stamp, not a merge); the dataset's
name, title and description keep their previous values, and the identifier
remains unchanged (the found record's own id is returned). -/
theorem c4_update_overwrites_options_only (options : List (String × BVal))
    (importId : Option String) (store : List DatasetDoc)
    (fA fB fC fD : String) (now : Timestamp) (d : DatasetDoc)
    (hfind : store.find?
      (fun d0 => dsMatches (chooseMatcher options).to_criteria d0) = some d)
    (himp : ∀ s, importId = some s → isValidObjectId s = true) :
    saveImport options importId store fA fB fC fD now =
      .ok (some (d.id, d.id),
        updateFirst (fun d0 => dsMatches (chooseMatcher options).to_criteria d0)
          (amendedUpdate options importId fB now) store) ∧
    (updateFirst (fun d0 => dsMatches (chooseMatcher options).to_criteria d0)
        (amendedUpdate options importId fB now) store).map DatasetDoc.id
      = store.map DatasetDoc.id ∧
    (updateFirst (fun d0 => dsMatches (chooseMatcher options).to_criteria d0)
        (amendedUpdate options importId fB now) store).map DatasetDoc.name
      = store.map DatasetDoc.name ∧
    (updateFirst (fun d0 => dsMatches (chooseMatcher options).to_criteria d0)
        (amendedUpdate options importId fB now) store).map DatasetDoc.title
      = store.map DatasetDoc.title ∧
    (updateFirst (fun d0 => dsMatches (chooseMatcher options).to_criteria d0)
        (amendedUpdate options importId fB now) store).map DatasetDoc.descr
      = store.map DatasetDoc.descr := by
  refine ⟨?_, ?_, ?_, ?_, ?_⟩
  · unfold saveImport
    cases importId with
    | none =>
      simp only [updateImport_found _ _ _ _ _ _ _ d hfind]
      rfl
    | some s =>
      have hv := himp s rfl
      simp only [objectIdFromStr, hv, if_true]
      simp only [updateImport_found _ _ _ _ _ _ _ d hfind]
      rfl
  · exact updateFirst_map _ (amendedUpdate options importId fB now)
      DatasetDoc.id (fun x => rfl) store
  · exact updateFirst_map _ (amendedUpdate options importId fB now)
      DatasetDoc.name (fun x => rfl) store
  · exact updateFirst_map _ (amendedUpdate options importId fB now)
      DatasetDoc.title (fun x => rfl) store
  · exact updateFirst_map _ (amendedUpdate options importId fB now)
      DatasetDoc.descr (fun x => rfl) store

/-- Witness for C4's amended theorem at the concrete save of the
counterexample. -/
theorem c4_update_overwrites_options_only_witness :
    saveImport c4Options none [c4Ds] "fA" "fB" "i2" "d2" t0 =
      .ok (some (c4Ds.id, c4Ds.id),
        updateFirst
          (fun d0 => dsMatches (chooseMatcher c4Options).to_criteria d0)
          (amendedUpdate c4Options none "fB" t0) [c4Ds]) ∧
    (updateFirst (fun d0 => dsMatches (chooseMatcher c4Options).to_criteria d0)
        (amendedUpdate c4Options none "fB" t0) [c4Ds]).map DatasetDoc.title
      = [c4Ds].map DatasetDoc.title :=
  have h := c4_update_overwrites_options_only c4Options none [c4Ds] "fA" "fB"
    "i2" "d2" t0 c4Ds rfl (fun _ hh => Option.noConfusion hh)
  ⟨h.1, h.2.2.2.1⟩

/-- C6 counterexample: at operator `eq`, raw value "2024-01-01" and declared
type Integer, the code enters the numeric branch (declared type numeric),
fails the integer parse and falls back to the raw STRING — while the claimed
first-success cascade would continue to the date-like step and produce a
timestamp comparison. -/
theorem c6_counterexample_numeric_fallthrough :
    castToComparison "$eq" "2024-01-01" CastDataType.integer
      = [("$eq", CmpVal.cStr "2024-01-01")] ∧
    castClaimCascade "$eq" "2024-01-01" CastDataType.integer
      = [("$eq", CmpVal.cDt ⟨2024, 1, 1, 0, 0, 0, 0⟩)] ∧
    castToComparison "$eq" "2024-01-01" CastDataType.integer
      ≠ castClaimCascade "$eq" "2024-01-01" CastDataType.integer := by
  refine ⟨rfl, rfl, by decide⟩

/-- C6 amended: the cast cascade is selected by predicates evaluated
top-to-bottom (lexically-numeric-or-declared-numeric, then date-like, then
truthy token), and a selected branch whose parse fails falls back directly to
the raw string without trying later branches; the four claimed example casts
hold: `gt "10" Integer` is a numeric comparison on 10, `eq "true" Boolean` is
boolean true, `eq "2024-01-01" Date` is a timestamp comparison, and
`eq "hello" String` is a literal string comparison. -/
theorem c6_cast_cascade_amended :
    (∀ op v dt, castToComparison op v dt = castAmendedCascade op v dt) ∧
    toCriteria (some "n") (some "10") (some "gt") (some "integer")
      = some ("data.n", [("$gt", CmpVal.cInt 10)]) ∧
    toCriteria (some "b") (some "true") (some "eq") (some "boolean")
      = some ("data.b", [("$eq", CmpVal.cBool true)]) ∧
    toCriteria (some "d") (some "2024-01-01") (some "eq") (some "date")
      = some ("data.d", [("$eq", CmpVal.cDt ⟨2024, 1, 1, 0, 0, 0, 0⟩)]) ∧
    toCriteria (some "s") (some "hello") (some "eq") (some "string")
      = some ("data.s", [("$eq", CmpVal.cStr "hello")]) := by
  refine ⟨?_, rfl, rfl, rfl, rfl⟩
  intro op v dt
  unfold castToComparison castAmendedCascade
  cases h1 : (isNumericStr v || dt.isNumericType) <;>
    cases h2 : dt.isIntegerType <;>
      cases h3 : isDatetimeLike v <;>
        cases h4 : parseI64 v <;>
          cases h5 : parseF64 v <;>
            cases h6 : isoFuzzyStringToDatetime v <;>
              cases h7 : isTruthyCore v <;>
                simp [h1, h2, h3, h4, h5, h6, h7]

/-- C10: a caller-supplied `limit=0` passes the pagination clamp unchanged
(zero never exceeds the configured maximum), and the row-fetch layer
reinterprets the zero limit as a 10,000,000-row internal cap, so the request
returns all matching rows up to that cap rather than an empty page. -/
theorem c10_zero_limit_unbounded (maxListing : Nat) (start? : Option Nat) :
    (toPagination maxListing start? (some 0)).2 = 0 ∧
    effectiveFindLimit (toPagination maxListing start? (some 0)).2
      = 10000000 := by
  refine ⟨?_, ?_⟩ <;> simp [toPagination, effectiveFindLimit]

end SheetApi
